import Mathlib

/-!
# Verification of the HA-Nuheat-Conductor state-normalization and command logic

This file embeds, in Lean 4, the data-mapping layer of the Nuheat Conductor
Home Assistant integration and proves properties of it.

The repository contains two parallel implementations of the climate platform:

* `custom_components/nuheat_conductor/climate.py` — the current integration
  (v1 vendor API, scaled ×100 integer temperatures, preset modes, group
  entities, account preferences).  Embedded below at top level.
* `nuheat_conductor/climate.py` — a legacy variant (v2 vendor API, unscaled
  temperatures, no presets, no groups).  Embedded in the `Legacy` namespace.

Python dictionaries coming from JSON are modelled as association lists of
string keys and `JVal` values; Python truthiness of a value is `truthy`;
dictionary truthiness is emptiness of the list.  Decimal temperatures are
modelled as rationals (the spec accepts the exact-arithmetic idealization of
the float computation; `t / 100.0` and `int(t * 100)` are exact on the
values the claims quantify over).  Fields that the Python code only ever
reads in a boolean context (`_is_online`, `_is_heating`, `awayMode`) are
stored as the truthiness of the raw value, which is observationally
equivalent.  A non-numeric value in a field the Python code divides by 100
is treated as absent (the Python code would raise there; no claim touches
that case).
-/

/-- A JSON scalar value as it appears in the vendor payload dictionaries. -/
inductive JVal where
  | jnull
  | jnum (q : ℚ)
  | jstr (s : String)
  | jbool (b : Bool)
deriving DecidableEq

/-- A raw vendor dictionary: association list of key/value pairs. -/
def RawDict := List (String × JVal)
deriving DecidableEq

instance : Membership (String × JVal) RawDict := inferInstanceAs (Membership _ (List _))

/-- Model of `d.get(k)` on a Python dict: the value under the first occurrence of `k`. -/
def dget (d : RawDict) (k : String) : Option JVal :=
  (List.find? (fun kv => kv.1 = k) d).map Prod.snd

/-- Python truthiness of a JSON scalar. -/
def truthy : JVal → Bool
  | .jnull => false
  | .jnum q => q ≠ 0
  | .jstr s => s ≠ ""
  | .jbool b => b

/-- Truthiness of `d.get(k, default)`: the stored value's truthiness, or the
default's when the key is absent. -/
def truthyD (v : Option JVal) (dflt : Bool) : Bool :=
  match v with
  | some x => truthy x
  | none => dflt

/-- Numeric read of a field: `some q` when the stored value is a number. -/
def getNum? (d : RawDict) (k : String) : Option ℚ :=
  match dget d k with
  | some (.jnum q) => some q
  | _ => none

/-- String read of a field: `some s` when the stored value is a string. -/
def getStr? (d : RawDict) (k : String) : Option String :=
  match dget d k with
  | some (.jstr s) => some s
  | _ => none

/-- Python `int()` applied to a rational: truncation toward zero. -/
def intTrunc (q : ℚ) : ℤ :=
  if 0 ≤ q then ⌊q⌋ else ⌈q⌉

/-- Inbound temperature conversion used throughout `_update_from_data`
(v1): `value / 100.0`. -/
def decodeTemp (q : ℚ) : ℚ := q / 100

/-- Outbound temperature conversion used in
`NuheatConductorAPI.set_target_temperature`: `int(temperature * 100)`. -/
def encodeTemp (t : ℚ) : ℤ := intTrunc (t * 100)

/-- A parsed HTTP response body: the v1 endpoints return either a JSON
object or a JSON array of objects. -/
inductive JBody where
  | jobj (d : RawDict)
  | jlist (l : List RawDict)
deriving DecidableEq

/-- The outcome of one network attempt, as seen by `_make_request`:
an HTTP status with body, a token-refresh failure, a timeout, or another
transport exception. -/
inductive NetOutcome where
  | httpStatus (code : ℕ) (body : JBody)
  | tokenFailure
  | timeout
  | exn
deriving DecidableEq

/-- A network call issued by a command handler (method+path, JSON body for
PUTs).  Used to state "no network call is issued" / "a re-fetch is issued". -/
inductive NetCall where
  | put (endpoint : String) (body : RawDict)
  | get (endpoint : String)
deriving DecidableEq

/-- Model of `NuheatConductorAPI._make_request` (v1): classify the outcome.
401 → `None`; 200 → parsed body; 204 → `{}` (empty object, success);
any other status, timeout, token failure or exception → `None`. -/
def makeRequest (o : NetOutcome) : Option JBody :=
  match o with
  | .httpStatus code b =>
      if code = 401 then none
      else if code = 200 then some b
      else if code = 204 then some (.jobj [])
      else none
  | .tokenFailure => none
  | .timeout => none
  | .exn => none

/-- Model of `NuheatConductorAPI.get_thermostats` (v1): type guard — a non-list
result (including the 204 empty object) is coerced to `[]`. -/
def get_thermostats (o : NetOutcome) : List RawDict :=
  match makeRequest o with
  | some (.jlist l) => l
  | _ => []

/-- Model of `NuheatConductorAPI.get_groups` (v1): same list type guard. -/
def get_groups (o : NetOutcome) : List RawDict :=
  match makeRequest o with
  | some (.jlist l) => l
  | _ => []

/-- Model of `NuheatConductorAPI.get_thermostat_data` (v1): type guard — a non-dict
result is coerced to `None`; the 204 empty object passes through as `{}`. -/
def get_thermostat_data (o : NetOutcome) : Option RawDict :=
  match makeRequest o with
  | some (.jobj d) => some d
  | _ => none

/-- Model of `NuheatConductorAPI.get_account_info` (v1): dict type guard. -/
def get_account_info (o : NetOutcome) : Option RawDict :=
  match makeRequest o with
  | some (.jobj d) => some d
  | _ => none

/-- The outbound payload built by `NuheatConductorAPI.set_target_temperature`
(v1): serial number, name, `int(temperature * 100)`, schedule mode, and a
null `holdSetPointDateTime`. -/
def set_target_temperature_payload (thermostat_id name : String) (temperature : ℚ)
    (mode : ℚ) : RawDict :=
  [("serialNumber", .jstr thermostat_id),
   ("name", .jstr name),
   ("setPointTemp", .jnum (encodeTemp temperature : ℤ)),
   ("scheduleMode", .jnum mode),
   ("holdSetPointDateTime", .jnull)]

/-- The outbound payload built by `NuheatConductorAPI.set_schedule_mode` (v1). -/
def set_schedule_mode_payload (thermostat_id : String) (mode : ℚ) : RawDict :=
  [("serialNumber", .jstr thermostat_id), ("scheduleMode", .jnum mode)]

/-- The outbound payload built by `NuheatConductorAPI.set_group_away_mode` (v1). -/
def set_group_away_mode_payload (group_id : String) (away_mode : Bool) : RawDict :=
  [("groupId", .jstr group_id), ("awayMode", .jbool away_mode)]

/-- The account temperature unit. -/
inductive TempUnit where
  | celsius
  | fahrenheit
deriving DecidableEq

/-- Unit selection in `async_setup_entry` (v1): default Fahrenheit; when the
account info is a truthy dict, `"Celsius"` selects Celsius, `"Fahrenheit"`
selects Fahrenheit, anything else keeps the default. -/
def tempScaleOf (account_info : Option RawDict) : TempUnit :=
  match account_info with
  | none => .fahrenheit
  | some info =>
      if info = [] then .fahrenheit
      else if dget info "temperatureScale" = some (.jstr "Celsius") then .celsius
      else if dget info "temperatureScale" = some (.jstr "Fahrenheit") then .fahrenheit
      else .fahrenheit

/-- Host-facing HVAC action. -/
inductive HVACAction where
  | off
  | heating
  | idle
deriving DecidableEq

/-- Host-facing HVAC mode. -/
inductive HVACMode where
  | heat
  | off
  | auto
deriving DecidableEq

/-- The mutable state of a `NuheatConductorThermostat` entity (v1): the
canonical thermostat record plus the availability flag. -/
structure ThermoState where
  thermostat_id : String
  attr_name : String
  temperature_unit : TempUnit
  current_temperature : Option ℚ
  target_temperature : Option ℚ
  min_temperature : Option ℚ
  max_temperature : Option ℚ
  schedule_mode : Option JVal
  is_heating : Bool
  is_online : Bool
  attr_available : Bool
deriving DecidableEq

/-- Model of `NuheatConductorThermostat._update_from_data` (v1): no-op on a falsy
dict; otherwise convert the four temperature fields by `/100`, copy
`scheduleMode` verbatim, copy `online` (default true), and force
`isHeating` to false when offline. -/
def updateFromData (s : ThermoState) (data : RawDict) : ThermoState :=
  if data = [] then s
  else
    let onl := truthyD (dget data "online") true
    { s with
      current_temperature := (getNum? data "currentTemperature").map decodeTemp
      target_temperature := (getNum? data "setPointTemp").map decodeTemp
      min_temperature := (getNum? data "minTemp").map decodeTemp
      max_temperature := (getNum? data "maxTemp").map decodeTemp
      schedule_mode := dget data "scheduleMode"
      is_online := onl
      is_heating := if !onl then false else truthyD (dget data "isHeating") false }

/-- Model of `NuheatConductorThermostat.__init__` (v1): read identity and name, set
the field defaults, then run `_update_from_data` on the construction
payload. -/
def initThermostat (data : RawDict) (unit : TempUnit) : ThermoState :=
  updateFromData
    { thermostat_id := (getStr? data "serialNumber").getD ""
      attr_name := (getStr? data "name").getD "Nuheat Conductor Thermostat"
      temperature_unit := unit
      current_temperature := none
      target_temperature := none
      min_temperature := none
      max_temperature := none
      schedule_mode := none
      is_heating := false
      is_online := true
      attr_available := true } data

/-- Model of `NuheatConductorThermostat.min_temp` (v1): stored bound, else the
unit-specific default 5.0 / 41.0. -/
def min_temp (s : ThermoState) : ℚ :=
  match s.min_temperature with
  | some m => m
  | none => if s.temperature_unit = .celsius then 5 else 41

/-- Model of `NuheatConductorThermostat.max_temp` (v1): stored bound, else the
unit-specific default 40.0 / 104.0. -/
def max_temp (s : ThermoState) : ℚ :=
  match s.max_temperature with
  | some m => m
  | none => if s.temperature_unit = .celsius then 40 else 104

/-- Model of `NuheatConductorThermostat.hvac_action` (v1): offline → OFF; heating →
HEATING; else IDLE. -/
def hvac_action (s : ThermoState) : HVACAction :=
  if !s.is_online then .off
  else if s.is_heating then .heating
  else .idle

/-- Model of `NuheatConductorThermostat.hvac_mode` (v1): offline → OFF; else HEAT. -/
def hvac_mode (s : ThermoState) : HVACMode :=
  if !s.is_online then .off else .heat

/-- Model of `NuheatConductorThermostat.preset_mode` (v1): schedule mode 1 → "Auto",
2 → "Hold", 3 → "Permanent Hold", anything else → no preset. -/
def preset_mode (s : ThermoState) : Option String :=
  if s.schedule_mode = some (.jnum 1) then some "Auto"
  else if s.schedule_mode = some (.jnum 2) then some "Hold"
  else if s.schedule_mode = some (.jnum 3) then some "Permanent Hold"
  else none

/-- The `mode_map` table in `async_set_preset_mode` (v1): preset string →
schedule mode code, unknown presets → `None`. -/
def mode_map (preset : String) : Option ℚ :=
  if preset = "Auto" then some 1
  else if preset = "Hold" then some 2
  else if preset = "Permanent Hold" then some 3
  else none

/-- Model of `NuheatConductorThermostat.async_update` (v1): no-op on empty identity;
otherwise fetch the record; a truthy dict replaces the canonical record and
marks the entity available, a `None` or falsy (empty) dict only clears
availability. -/
def async_update (s : ThermoState) (oGet : NetOutcome) : ThermoState :=
  if s.thermostat_id = "" then s
  else
    match get_thermostat_data oGet with
    | some d =>
        if d = [] then { s with attr_available := false }
        else { updateFromData s d with attr_available := true }
    | none => { s with attr_available := false }

/-- Model of `NuheatConductorThermostat.async_set_temperature` (v1).  `oPut` is the
outcome of the PUT; `oGet` the outcome of the reconciliation GET when the
PUT fails.  Returns the new state and the network calls issued, in order. -/
def async_set_temperature (s : ThermoState) (temperature : Option ℚ)
    (oPut oGet : NetOutcome) : ThermoState × List NetCall :=
  match temperature with
  | none => (s, [])
  | some t =>
      if s.thermostat_id = "" then (s, [])
      else if !s.is_online then (s, [])
      else
        let payload := set_target_temperature_payload s.thermostat_id s.attr_name t 2
        let firstCall := NetCall.put "/api/v1/Thermostat" payload
        if (makeRequest oPut).isSome then
          ({ s with schedule_mode := some (.jnum 2) }, [firstCall])
        else
          (async_update s oGet,
           [firstCall, NetCall.get ("/api/v1/Thermostat/" ++ s.thermostat_id)])

/-- Model of `NuheatConductorThermostat.async_set_preset_mode` (v1). -/
def async_set_preset_mode (s : ThermoState) (preset : String)
    (oPut oGet : NetOutcome) : ThermoState × List NetCall :=
  if s.thermostat_id = "" then (s, [])
  else if !s.is_online then (s, [])
  else
    match mode_map preset with
    | none => (s, [])
    | some mode =>
        let firstCall :=
          NetCall.put "/api/v1/Thermostat" (set_schedule_mode_payload s.thermostat_id mode)
        if (makeRequest oPut).isSome then
          ({ s with schedule_mode := some (.jnum mode) }, [firstCall])
        else
          (async_update s oGet,
           [firstCall, NetCall.get ("/api/v1/Thermostat/" ++ s.thermostat_id)])

/-- Model of `NuheatConductorThermostat.async_set_hvac_mode` (v1): HEAT re-issues the
current target when truthy; OFF targets `min_temp`; AUTO is not in the v1
mode list and falls through. -/
def async_set_hvac_mode (s : ThermoState) (m : HVACMode)
    (oPut oGet : NetOutcome) : ThermoState × List NetCall :=
  if s.thermostat_id = "" then (s, [])
  else if !s.is_online then (s, [])
  else
    match m with
    | .heat =>
        match s.target_temperature with
        | some t => if t ≠ 0 then async_set_temperature s (some t) oPut oGet else (s, [])
        | none => (s, [])
    | .off => async_set_temperature s (some (min_temp s)) oPut oGet
    | .auto => (s, [])

/-- The mutable state of a `NuheatConductorGroup` entity (v1). -/
structure GroupState where
  group_id : String
  attr_name : String
  away_mode : Bool
  away_setpoint : Option ℚ
  attr_available : Bool
deriving DecidableEq

/-- Model of `NuheatConductorGroup._update_from_data` (v1). -/
def groupUpdateFromData (s : GroupState) (data : RawDict) : GroupState :=
  if data = [] then s
  else
    { s with
      away_mode := truthyD (dget data "awayMode") false
      away_setpoint := (getNum? data "awaySetPointTemp").map decodeTemp }

/-- The group lookup loop in `NuheatConductorGroup.async_update` (v1). -/
def findGroup (groups : List RawDict) (group_id : String) : Option RawDict :=
  List.find? (fun g => dget g "groupId" = some (.jstr group_id)) groups

/-- Model of `NuheatConductorGroup.async_update` (v1): fetch the group list, find the
matching id, reconcile; mark unavailable when the group is gone. -/
def groupAsyncUpdate (s : GroupState) (oGet : NetOutcome) : GroupState :=
  if s.group_id = "" then s
  else
    match findGroup (get_groups oGet) s.group_id with
    | some g => { groupUpdateFromData s g with attr_available := true }
    | none => { s with attr_available := false }

/-- Model of `NuheatConductorGroup.async_set_preset_mode` (v1): "Away" enables away
mode, anything else disables it; success is optimistic, failure reconciles
through the group list. -/
def groupSetPresetMode (s : GroupState) (preset : String)
    (oPut oGet : NetOutcome) : GroupState × List NetCall :=
  if s.group_id = "" then (s, [])
  else
    let away := preset = "Away"
    let firstCall := NetCall.put "/api/v1/Group" (set_group_away_mode_payload s.group_id away)
    if (makeRequest oPut).isSome then
      ({ s with away_mode := away }, [firstCall])
    else
      (groupAsyncUpdate s oGet, [firstCall, NetCall.get "/api/v1/Group"])

namespace Legacy

/-- Model of `_make_request` in the legacy `nuheat_conductor/climate.py`: 401 →
`None`, 200 → body, and — unlike v1 — every other status (204 included) →
`None`. -/
def makeRequest (o : NetOutcome) : Option JBody :=
  match o with
  | .httpStatus code b =>
      if code = 401 then none
      else if code = 200 then some b
      else none
  | .tokenFailure => none
  | .timeout => none
  | .exn => none

/-- The mutable state of the legacy `NuheatConductorThermostat`. -/
structure State where
  thermostat_id : String
  attr_name : String
  current_temperature : Option ℚ
  target_temperature : Option ℚ
  min_temperature : Option ℚ
  max_temperature : Option ℚ
  schedule_mode : Option JVal
  is_heating : Bool
  is_online : Bool
  attr_available : Bool
deriving DecidableEq

/-- Legacy `_update_from_data`: temperatures are copied unscaled, and the
heating flag is copied verbatim from `heating` with no offline override. -/
def updateFromData (s : State) (data : RawDict) : State :=
  if data = [] then s
  else
    { s with
      current_temperature := getNum? data "temperature"
      target_temperature := getNum? data "setPointTemp"
      min_temperature := getNum? data "minTemp"
      max_temperature := getNum? data "maxTemp"
      schedule_mode := dget data "scheduleMode"
      is_heating := truthyD (dget data "heating") false
      is_online := truthyD (dget data "online") true }

/-- Legacy `min_temp`: `self._min_temperature or 41.0` — Python `or`
falls through on a falsy (absent or zero) stored bound. -/
def min_temp (s : State) : ℚ :=
  match s.min_temperature with
  | some m => if m ≠ 0 then m else 41
  | none => 41

/-- Legacy `hvac_action`: offline → OFF; heating → HEATING; else IDLE. -/
def hvac_action (s : State) : HVACAction :=
  if !s.is_online then .off
  else if s.is_heating then .heating
  else .idle

/-- Legacy `async_set_temperature`: no offline guard, no reconciliation on
failure; success overwrites `target_temperature` and sets schedule mode 3. -/
def async_set_temperature (s : State) (temperature : Option ℚ)
    (oPut : NetOutcome) : State × List NetCall :=
  match temperature with
  | none => (s, [])
  | some t =>
      if s.thermostat_id = "" then (s, [])
      else
        let call := NetCall.put ("/api/v2/Thermostat/" ++ s.thermostat_id)
          [("setPointTemp", .jnum t), ("scheduleMode", .jnum 3)]
        if (makeRequest oPut).isSome then
          ({ s with target_temperature := some t, schedule_mode := some (.jnum 3) }, [call])
        else
          (s, [call])

/-- Legacy `async_set_hvac_mode`. -/
def async_set_hvac_mode (s : State) (m : HVACMode)
    (oPut : NetOutcome) : State × List NetCall :=
  if s.thermostat_id = "" then (s, [])
  else
    match m with
    | .auto =>
        let call := NetCall.put ("/api/v2/Thermostat/" ++ s.thermostat_id)
          [("scheduleMode", .jnum 1)]
        if (makeRequest oPut).isSome then
          ({ s with schedule_mode := some (.jnum 1) }, [call])
        else
          (s, [call])
    | .heat =>
        match s.target_temperature with
        | some t => if t ≠ 0 then async_set_temperature s (some t) oPut else (s, [])
        | none => (s, [])
    | .off => async_set_temperature s (some (min_temp s)) oPut

end Legacy

/-- True exactly on GET network calls (used to state that a command issued
no re-fetch). -/
def NetCall.isFetch : NetCall → Bool
  | .get _ => true
  | .put _ _ => false

/-- A raw payload reporting an offline device that still claims to be
heating (both field-name variants set). -/
def rawOfflineHeating : RawDict :=
  [("online", .jbool false), ("heating", .jbool true), ("isHeating", .jbool true)]

/-- A well-formed raw thermostat record as returned by a re-fetch. -/
def rawRefetch : RawDict :=
  [("currentTemperature", .jnum 3000), ("setPointTemp", .jnum 3000),
   ("scheduleMode", .jnum 1), ("online", .jbool true), ("isHeating", .jbool false)]

/-- A concrete online v1 thermostat state with identity "A". -/
def thermoS0 : ThermoState :=
  { thermostat_id := "A"
    attr_name := "Thermostat A"
    temperature_unit := .fahrenheit
    current_temperature := some 30
    target_temperature := some 30
    min_temperature := none
    max_temperature := none
    schedule_mode := some (.jnum 2)
    is_heating := true
    is_online := true
    attr_available := true }

/-- A concrete online legacy thermostat state with identity "A". -/
def legacyS0 : Legacy.State :=
  { thermostat_id := "A"
    attr_name := "Thermostat A"
    current_temperature := some 30
    target_temperature := some 30
    min_temperature := none
    max_temperature := none
    schedule_mode := some (.jnum 1)
    is_heating := false
    is_online := true
    attr_available := true }

/-- The v1 state with its identity blanked out. -/
def thermoNoId : ThermoState := { thermoS0 with thermostat_id := "" }

/-- The legacy state with its identity blanked out. -/
def legacyNoId : Legacy.State := { legacyS0 with thermostat_id := "" }

/-- A concrete group state with empty identity. -/
def groupNoId : GroupState :=
  { group_id := ""
    attr_name := "Group: G"
    away_mode := false
    away_setpoint := none
    attr_available := true }

/-- A key that is looked up successfully forces the dictionary to be
non-empty (Python: a dict with a hit for `k` is truthy). -/
theorem dget_ne_nil {d : RawDict} {k : String} {v : JVal}
    (h : dget d k = some v) : d ≠ [] := by
  intro he
  rw [he] at h
  simp [dget] at h

/-- Claim C1, amended.  For a raw payload whose `online` field is `false`:
the current (`custom_components`) normalizer forces `is_heating = false` and
derives hvac_action OFF; the legacy normalizer also derives hvac_action OFF,
but copies the raw `heating` flag into `is_heating` unchanged instead of
forcing it to false. -/
theorem c1_offline_forces_not_heating (s : ThermoState) (sl : Legacy.State)
    (d : RawDict) (h : dget d "online" = some (.jbool false)) :
    (updateFromData s d).is_heating = false
    ∧ hvac_action (updateFromData s d) = .off
    ∧ Legacy.hvac_action (Legacy.updateFromData sl d) = .off
    ∧ (Legacy.updateFromData sl d).is_heating = truthyD (dget d "heating") false := by
  have hne : d ≠ [] := dget_ne_nil h
  refine ⟨?_, ?_, ?_, ?_⟩ <;>
    simp [updateFromData, Legacy.updateFromData, hvac_action, Legacy.hvac_action,
      hne, h, truthyD, truthy]

/-- Witness for C1 at a concrete offline-but-heating payload. -/
theorem c1_offline_witness :
    dget rawOfflineHeating "online" = some (.jbool false)
    ∧ ((updateFromData thermoS0 rawOfflineHeating).is_heating = false
       ∧ hvac_action (updateFromData thermoS0 rawOfflineHeating) = .off
       ∧ Legacy.hvac_action (Legacy.updateFromData legacyS0 rawOfflineHeating) = .off
       ∧ (Legacy.updateFromData legacyS0 rawOfflineHeating).is_heating
           = truthyD (dget rawOfflineHeating "heating") false) :=
  ⟨by simp [dget, rawOfflineHeating, List.find?],
   c1_offline_forces_not_heating thermoS0 legacyS0 rawOfflineHeating
     (by simp [dget, rawOfflineHeating, List.find?])⟩

/-- Counterexample for C1 as stated: the legacy normalizer, fed a payload
with `online = false` and `heating = true`, leaves `is_heating = true`. -/
theorem c1_offline_counterexample :
    dget rawOfflineHeating "online" = some (.jbool false)
    ∧ (Legacy.updateFromData legacyS0 rawOfflineHeating).is_heating = true := by
  constructor
  · simp [dget, rawOfflineHeating, List.find?]
  · simp [Legacy.updateFromData, rawOfflineHeating, dget, List.find?, truthyD, truthy]

/-- Claim C4: decoding a raw integer temperature that is a multiple of 100
and re-encoding it returns it exactly. -/
theorem c4_decode_encode_roundtrip (t : ℤ) (_h : (100 : ℤ) ∣ t) :
    encodeTemp (decodeTemp (t : ℚ)) = t := by
  have h100 : decodeTemp (t : ℚ) * 100 = (t : ℚ) := by
    unfold decodeTemp
    field_simp
  unfold encodeTemp intTrunc
  rw [h100]
  split
  · exact Int.floor_intCast t
  · exact Int.ceil_intCast t

/-- Witness for C4 at the raw value 3000 (= 30.00 device units). -/
theorem c4_roundtrip_witness :
    (100 : ℤ) ∣ 3000 ∧ encodeTemp (decodeTemp ((3000 : ℤ) : ℚ)) = 3000 :=
  ⟨⟨30, by norm_num⟩, c4_decode_encode_roundtrip 3000 ⟨30, by norm_num⟩⟩

/-- Claim C2, amended.  On a successful set-temperature network call: the
current (`custom_components`) implementation sets `schedule_mode = 2`
(TEMPORARY_HOLD) and leaves `target_temperature` untouched; the legacy
implementation instead sets `schedule_mode = 3` (PERMANENT_HOLD) and
overwrites `target_temperature` with the commanded value. -/
theorem c2_set_temperature_success (s : ThermoState) (sl : Legacy.State)
    (t : ℚ) (oPut oGet oPutL : NetOutcome)
    (hid : s.thermostat_id ≠ "") (hon : s.is_online = true)
    (hok : (makeRequest oPut).isSome = true)
    (hlid : sl.thermostat_id ≠ "")
    (hlok : (Legacy.makeRequest oPutL).isSome = true) :
    (async_set_temperature s (some t) oPut oGet).1.schedule_mode = some (.jnum 2)
    ∧ (async_set_temperature s (some t) oPut oGet).1.target_temperature
        = s.target_temperature
    ∧ (Legacy.async_set_temperature sl (some t) oPutL).1.schedule_mode = some (.jnum 3)
    ∧ (Legacy.async_set_temperature sl (some t) oPutL).1.target_temperature = some t := by
  refine ⟨?_, ?_, ?_, ?_⟩ <;>
    simp [async_set_temperature, Legacy.async_set_temperature, hid, hon, hok, hlid, hlok]

/-- Witness for C2 at concrete online states and an HTTP 200 PUT outcome. -/
theorem c2_success_witness :
    thermoS0.thermostat_id ≠ "" ∧ thermoS0.is_online = true
    ∧ (makeRequest (.httpStatus 200 (.jobj []))).isSome = true
    ∧ legacyS0.thermostat_id ≠ ""
    ∧ (Legacy.makeRequest (.httpStatus 200 (.jobj []))).isSome = true
    ∧ ((async_set_temperature thermoS0 (some 35) (.httpStatus 200 (.jobj []))
          .timeout).1.schedule_mode = some (.jnum 2)
       ∧ (async_set_temperature thermoS0 (some 35) (.httpStatus 200 (.jobj []))
            .timeout).1.target_temperature = thermoS0.target_temperature
       ∧ (Legacy.async_set_temperature legacyS0 (some 35)
            (.httpStatus 200 (.jobj []))).1.schedule_mode = some (.jnum 3)
       ∧ (Legacy.async_set_temperature legacyS0 (some 35)
            (.httpStatus 200 (.jobj []))).1.target_temperature = some 35) :=
  ⟨by simp [thermoS0], rfl, rfl, by simp [legacyS0], rfl,
   c2_set_temperature_success thermoS0 legacyS0 35 (.httpStatus 200 (.jobj []))
     .timeout (.httpStatus 200 (.jobj [])) (by simp [thermoS0]) rfl rfl
     (by simp [legacyS0]) rfl⟩

/-- Counterexample for C2 as stated: the legacy implementation, on a
successful set-temperature for an online thermostat with identity "A",
ends with `schedule_mode = 3` (not 2) and with `target_temperature`
overwritten from 30 to the commanded 35. -/
theorem c2_success_counterexample :
    legacyS0.thermostat_id ≠ "" ∧ legacyS0.is_online = true
    ∧ legacyS0.target_temperature = some 30
    ∧ (Legacy.makeRequest (.httpStatus 200 (.jobj []))).isSome = true
    ∧ (Legacy.async_set_temperature legacyS0 (some 35)
         (.httpStatus 200 (.jobj []))).1.schedule_mode ≠ some (.jnum 2)
    ∧ (Legacy.async_set_temperature legacyS0 (some 35)
         (.httpStatus 200 (.jobj []))).1.target_temperature
        ≠ legacyS0.target_temperature := by
  refine ⟨by simp [legacyS0], rfl, rfl, rfl, ?_, ?_⟩ <;>
    simp [Legacy.async_set_temperature, Legacy.makeRequest, legacyS0]

/-- Claim C3, amended.  On a failed set-temperature network call: the
current (`custom_components`) implementation issues an immediate re-fetch
and publishes exactly the normalization of the re-fetched record (marking
the entity available); the legacy implementation issues no re-fetch at all
and leaves its state unchanged. -/
theorem c3_set_temperature_failure (s : ThermoState) (sl : Legacy.State)
    (t : ℚ) (oPut oGet oPutL : NetOutcome) (d : RawDict)
    (hid : s.thermostat_id ≠ "") (hon : s.is_online = true)
    (hfail : makeRequest oPut = none)
    (hget : get_thermostat_data oGet = some d) (hdne : d ≠ [])
    (hlid : sl.thermostat_id ≠ "")
    (hlfail : Legacy.makeRequest oPutL = none) :
    (async_set_temperature s (some t) oPut oGet).1
      = { updateFromData s d with attr_available := true }
    ∧ (async_set_temperature s (some t) oPut oGet).2
      = [.put "/api/v1/Thermostat"
           (set_target_temperature_payload s.thermostat_id s.attr_name t 2),
         .get ("/api/v1/Thermostat/" ++ s.thermostat_id)]
    ∧ (Legacy.async_set_temperature sl (some t) oPutL).1 = sl
    ∧ (Legacy.async_set_temperature sl (some t) oPutL).2
      = [.put ("/api/v2/Thermostat/" ++ sl.thermostat_id)
           [("setPointTemp", .jnum t), ("scheduleMode", .jnum 3)]] := by
  refine ⟨?_, ?_, ?_, ?_⟩ <;>
    simp [async_set_temperature, Legacy.async_set_temperature, async_update,
      hid, hon, hfail, hget, hdne, hlid, hlfail]

/-- Witness for C3: a timed-out PUT followed by a successful re-fetch of
`rawRefetch`. -/
theorem c3_failure_witness :
    thermoS0.thermostat_id ≠ "" ∧ thermoS0.is_online = true
    ∧ makeRequest .timeout = none
    ∧ get_thermostat_data (.httpStatus 200 (.jobj rawRefetch)) = some rawRefetch
    ∧ rawRefetch ≠ []
    ∧ legacyS0.thermostat_id ≠ "" ∧ Legacy.makeRequest .timeout = none
    ∧ ((async_set_temperature thermoS0 (some 35) .timeout
          (.httpStatus 200 (.jobj rawRefetch))).1
        = { updateFromData thermoS0 rawRefetch with attr_available := true }
       ∧ (async_set_temperature thermoS0 (some 35) .timeout
            (.httpStatus 200 (.jobj rawRefetch))).2
        = [.put "/api/v1/Thermostat"
             (set_target_temperature_payload thermoS0.thermostat_id
               thermoS0.attr_name 35 2),
           .get ("/api/v1/Thermostat/" ++ thermoS0.thermostat_id)]
       ∧ (Legacy.async_set_temperature legacyS0 (some 35) .timeout).1 = legacyS0
       ∧ (Legacy.async_set_temperature legacyS0 (some 35) .timeout).2
        = [.put ("/api/v2/Thermostat/" ++ legacyS0.thermostat_id)
             [("setPointTemp", .jnum 35), ("scheduleMode", .jnum 3)]]) :=
  ⟨by simp [thermoS0], rfl, rfl, rfl, by simp [rawRefetch], by simp [legacyS0], rfl,
   c3_set_temperature_failure thermoS0 legacyS0 35 .timeout
     (.httpStatus 200 (.jobj rawRefetch)) .timeout rawRefetch
     (by simp [thermoS0]) rfl rfl rfl (by simp [rawRefetch])
     (by simp [legacyS0]) rfl⟩

/-- Counterexample for C3 as stated: the legacy implementation, after a
failed (timed-out) set-temperature on an online thermostat with identity
"A", issues only the PUT — no re-fetch GET appears in its network calls —
and keeps its previous state. -/
theorem c3_failure_counterexample :
    (Legacy.async_set_temperature legacyS0 (some 35) .timeout).2
      = [.put "/api/v2/Thermostat/A"
           [("setPointTemp", .jnum 35), ("scheduleMode", .jnum 3)]]
    ∧ ((Legacy.async_set_temperature legacyS0 (some 35) .timeout).2.all
         fun c => !c.isFetch) = true
    ∧ (Legacy.async_set_temperature legacyS0 (some 35) .timeout).1 = legacyS0 := by
  refine ⟨?_, ?_, ?_⟩ <;>
    simp [Legacy.async_set_temperature, Legacy.makeRequest, legacyS0, NetCall.isFetch]

/-- Claim C5, amended.  The set-temperature command PUTs, as its first (and
on success only) network call, a payload carrying the serial number, the
display name, a null `holdSetPointDateTime`, `scheduleMode = 2`, and
`setPointTemp = int(t * 100)` — the truncation of `t·100` toward zero,
which is `round(t·100)` only when `t·100` is already an integer. -/
theorem c5_payload_fields (s : ThermoState) (t : ℚ) (oPut oGet : NetOutcome)
    (hid : s.thermostat_id ≠ "") (hon : s.is_online = true) :
    (async_set_temperature s (some t) oPut oGet).2.head?
      = some (.put "/api/v1/Thermostat"
          (set_target_temperature_payload s.thermostat_id s.attr_name t 2))
    ∧ dget (set_target_temperature_payload s.thermostat_id s.attr_name t 2)
        "setPointTemp" = some (.jnum (intTrunc (t * 100) : ℤ))
    ∧ dget (set_target_temperature_payload s.thermostat_id s.attr_name t 2)
        "scheduleMode" = some (.jnum 2)
    ∧ dget (set_target_temperature_payload s.thermostat_id s.attr_name t 2)
        "name" = some (.jstr s.attr_name)
    ∧ dget (set_target_temperature_payload s.thermostat_id s.attr_name t 2)
        "holdSetPointDateTime" = some .jnull
    ∧ dget (set_target_temperature_payload s.thermostat_id s.attr_name t 2)
        "serialNumber" = some (.jstr s.thermostat_id) := by
  refine ⟨?_, ?_, ?_, ?_, ?_, ?_⟩
  · by_cases hp : (makeRequest oPut).isSome <;>
      simp [async_set_temperature, hid, hon, hp]
  all_goals
    simp [set_target_temperature_payload, dget, List.find?, encodeTemp]

/-- Witness for C5 at a concrete online state and temperature 35. -/
theorem c5_payload_witness :
    thermoS0.thermostat_id ≠ "" ∧ thermoS0.is_online = true
    ∧ ((async_set_temperature thermoS0 (some 35) .timeout .timeout).2.head?
        = some (.put "/api/v1/Thermostat"
            (set_target_temperature_payload thermoS0.thermostat_id
              thermoS0.attr_name 35 2))
       ∧ dget (set_target_temperature_payload thermoS0.thermostat_id
            thermoS0.attr_name 35 2) "setPointTemp"
          = some (.jnum (intTrunc ((35 : ℚ) * 100) : ℤ))
       ∧ dget (set_target_temperature_payload thermoS0.thermostat_id
            thermoS0.attr_name 35 2) "scheduleMode" = some (.jnum 2)
       ∧ dget (set_target_temperature_payload thermoS0.thermostat_id
            thermoS0.attr_name 35 2) "name" = some (.jstr thermoS0.attr_name)
       ∧ dget (set_target_temperature_payload thermoS0.thermostat_id
            thermoS0.attr_name 35 2) "holdSetPointDateTime" = some .jnull
       ∧ dget (set_target_temperature_payload thermoS0.thermostat_id
            thermoS0.attr_name 35 2) "serialNumber"
          = some (.jstr thermoS0.thermostat_id)) :=
  ⟨by simp [thermoS0], rfl,
   c5_payload_fields thermoS0 35 .timeout .timeout (by simp [thermoS0]) rfl⟩

/-- Counterexample for C5 as stated: at temperature t = 35.006 the outbound
`setPointTemp` is 3500 (truncation of 3500.6), while `round(t·100)` is
3501 — the code truncates, it does not round. -/
theorem c5_round_counterexample :
    dget (set_target_temperature_payload "A" "Thermostat A" (17503/500) 2)
      "setPointTemp" = some (.jnum 3500)
    ∧ round ((17503 : ℚ)/500 * 100) = 3501 := by
  constructor
  · have henc : encodeTemp (17503/500) = 3500 := by
      norm_num [encodeTemp, intTrunc]
    simp [set_target_temperature_payload, dget, List.find?, henc]
  · rw [round_eq]
    norm_num

/-- Claim C6, amended.  The current (`custom_components`) client classifies
HTTP 204 as success with an empty object, and its list-expecting accessors
coerce that empty object to the empty list; the legacy client classifies
HTTP 204 as a failure (`None`). -/
theorem c6_http204_success (b : JBody) :
    makeRequest (.httpStatus 204 b) = some (.jobj [])
    ∧ get_thermostats (.httpStatus 204 b) = []
    ∧ get_groups (.httpStatus 204 b) = []
    ∧ Legacy.makeRequest (.httpStatus 204 b) = none := by
  refine ⟨?_, ?_, ?_, ?_⟩ <;>
    simp [makeRequest, get_thermostats, get_groups, Legacy.makeRequest]

/-- Counterexample for C6 as stated: the legacy client turns an HTTP 204
response into `None`, i.e. a failure, not a success. -/
theorem c6_http204_counterexample :
    Legacy.makeRequest (.httpStatus 204 (.jobj [])) = none
    ∧ (Legacy.makeRequest (.httpStatus 204 (.jobj []))).isSome = false := by
  constructor <;> simp [Legacy.makeRequest]

/-- Claim C7: for schedule-mode codes 1, 2, 3 the preset derivation
(1→"Auto", 2→"Hold", 3→"Permanent Hold") and the `mode_map` command table
are mutually inverse. -/
theorem c7_preset_roundtrip (m : ℚ) (s : ThermoState)
    (hm : m = 1 ∨ m = 2 ∨ m = 3) (hs : s.schedule_mode = some (.jnum m)) :
    (preset_mode s).bind mode_map = some m := by
  rcases hm with h | h | h <;> subst h <;> simp [preset_mode, mode_map, hs]

/-- Witness for C7 at mode code 2 ("Hold"). -/
theorem c7_preset_witness :
    ((2 : ℚ) = 1 ∨ (2 : ℚ) = 2 ∨ (2 : ℚ) = 3)
    ∧ thermoS0.schedule_mode = some (.jnum 2)
    ∧ (preset_mode thermoS0).bind mode_map = some 2 :=
  ⟨Or.inr (Or.inl rfl), rfl, c7_preset_roundtrip 2 thermoS0 (Or.inr (Or.inl rfl)) rfl⟩

/-- Claim C8: every command on a record with an empty identity issues no
network call and leaves the state unchanged — for both thermostat
implementations and for groups. -/
theorem c8_empty_identity_noop (s : ThermoState) (sl : Legacy.State)
    (g : GroupState) (t : ℚ) (preset : String) (m : HVACMode)
    (oPut oGet : NetOutcome)
    (hs : s.thermostat_id = "") (hl : sl.thermostat_id = "")
    (hg : g.group_id = "") :
    async_set_temperature s (some t) oPut oGet = (s, [])
    ∧ async_set_preset_mode s preset oPut oGet = (s, [])
    ∧ async_set_hvac_mode s m oPut oGet = (s, [])
    ∧ groupSetPresetMode g preset oPut oGet = (g, [])
    ∧ Legacy.async_set_temperature sl (some t) oPut = (sl, [])
    ∧ Legacy.async_set_hvac_mode sl m oPut = (sl, []) := by
  refine ⟨?_, ?_, ?_, ?_, ?_, ?_⟩ <;>
    simp [async_set_temperature, async_set_preset_mode, async_set_hvac_mode,
      groupSetPresetMode, Legacy.async_set_temperature, Legacy.async_set_hvac_mode,
      hs, hl, hg]

/-- Witness for C8 at concrete empty-identity records. -/
theorem c8_empty_identity_witness :
    thermoNoId.thermostat_id = "" ∧ legacyNoId.thermostat_id = ""
    ∧ groupNoId.group_id = ""
    ∧ (async_set_temperature thermoNoId (some 35) .timeout .timeout = (thermoNoId, [])
       ∧ async_set_preset_mode thermoNoId "Hold" .timeout .timeout = (thermoNoId, [])
       ∧ async_set_hvac_mode thermoNoId .heat .timeout .timeout = (thermoNoId, [])
       ∧ groupSetPresetMode groupNoId "Hold" .timeout .timeout = (groupNoId, [])
       ∧ Legacy.async_set_temperature legacyNoId (some 35) .timeout = (legacyNoId, [])
       ∧ Legacy.async_set_hvac_mode legacyNoId .heat .timeout = (legacyNoId, [])) :=
  ⟨rfl, rfl, rfl,
   c8_empty_identity_noop thermoNoId legacyNoId groupNoId 35 "Hold" .heat
     .timeout .timeout rfl rfl rfl⟩

/-- Claim C9: when the raw record omits `minTemp`/`maxTemp`, the derived
bounds are the unit defaults (41/104 Fahrenheit, 5/40 Celsius), and the
Celsius unit is selected exactly when the account's `temperatureScale`
value is the string "Celsius" (case-sensitively); any other or absent
value yields Fahrenheit. -/
theorem c9_default_bounds (ai : Option RawDict) (d : RawDict)
    (hmin : dget d "minTemp" = none) (hmax : dget d "maxTemp" = none) :
    (tempScaleOf ai = .fahrenheit →
       min_temp (initThermostat d (tempScaleOf ai)) = 41
       ∧ max_temp (initThermostat d (tempScaleOf ai)) = 104)
    ∧ (tempScaleOf ai = .celsius →
       min_temp (initThermostat d (tempScaleOf ai)) = 5
       ∧ max_temp (initThermostat d (tempScaleOf ai)) = 40)
    ∧ (tempScaleOf ai = .celsius ↔
       ∃ info, ai = some info ∧ info ≠ []
         ∧ dget info "temperatureScale" = some (.jstr "Celsius")) := by
  have hmin' : ∀ u, (initThermostat d u).min_temperature = none := by
    intro u
    unfold initThermostat updateFromData
    split
    · rfl
    · simp [getNum?, hmin]
  have hmax' : ∀ u, (initThermostat d u).max_temperature = none := by
    intro u
    unfold initThermostat updateFromData
    split
    · rfl
    · simp [getNum?, hmax]
  have hu : ∀ u, (initThermostat d u).temperature_unit = u := by
    intro u
    unfold initThermostat updateFromData
    split <;> rfl
  refine ⟨?_, ?_, ?_⟩
  · intro hf
    rw [hf]
    constructor <;> simp [min_temp, max_temp, hmin' _, hmax' _, hu _]
  · intro hc
    rw [hc]
    constructor <;> simp [min_temp, max_temp, hmin' _, hmax' _, hu _]
  · constructor
    · intro hc
      cases ai with
      | none => simp [tempScaleOf] at hc
      | some info =>
          simp only [tempScaleOf] at hc
          by_cases he : info = []
          · rw [if_pos he] at hc
            exact absurd hc (by simp)
          · rw [if_neg he] at hc
            by_cases hcel : dget info "temperatureScale" = some (.jstr "Celsius")
            · exact ⟨info, rfl, he, hcel⟩
            · rw [if_neg hcel] at hc
              rw [ite_self] at hc
              exact absurd hc (by simp)
    · rintro ⟨info, rfl, hne, hcel⟩
      simp [tempScaleOf, hne, hcel]

/-- Witness for C9: a "Celsius" account record and a raw thermostat record
with no bounds. -/
theorem c9_default_bounds_witness :
    dget ([] : RawDict) "minTemp" = none ∧ dget ([] : RawDict) "maxTemp" = none
    ∧ ((tempScaleOf (some [("temperatureScale", .jstr "Celsius")]) = .fahrenheit →
         min_temp (initThermostat []
           (tempScaleOf (some [("temperatureScale", .jstr "Celsius")]))) = 41
         ∧ max_temp (initThermostat []
             (tempScaleOf (some [("temperatureScale", .jstr "Celsius")]))) = 104)
       ∧ (tempScaleOf (some [("temperatureScale", .jstr "Celsius")]) = .celsius →
         min_temp (initThermostat []
           (tempScaleOf (some [("temperatureScale", .jstr "Celsius")]))) = 5
         ∧ max_temp (initThermostat []
             (tempScaleOf (some [("temperatureScale", .jstr "Celsius")]))) = 40)
       ∧ (tempScaleOf (some [("temperatureScale", .jstr "Celsius")]) = .celsius ↔
         ∃ info, (some [("temperatureScale", JVal.jstr "Celsius")] : Option RawDict)
             = some info
           ∧ info ≠ []
           ∧ dget info "temperatureScale" = some (.jstr "Celsius"))) :=
  ⟨rfl, rfl, c9_default_bounds (some [("temperatureScale", .jstr "Celsius")]) [] rfl rfl⟩

/-- Claim C10: a single-thermostat poll answered with HTTP 204 (success,
empty object) marks the entity unavailable and leaves every canonical
record field unchanged — the very same final state as a failed (timed-out)
poll. -/
theorem c10_empty_poll_unavailable (s : ThermoState) (b : JBody)
    (hid : s.thermostat_id ≠ "") :
    async_update s (.httpStatus 204 b) = { s with attr_available := false }
    ∧ async_update s (.httpStatus 204 b) = async_update s .timeout := by
  constructor <;>
    simp [async_update, get_thermostat_data, makeRequest, hid]

/-- Witness for C10 at a concrete state and 204 body. -/
theorem c10_empty_poll_witness :
    thermoS0.thermostat_id ≠ ""
    ∧ (async_update thermoS0 (.httpStatus 204 (.jobj []))
        = { thermoS0 with attr_available := false }
       ∧ async_update thermoS0 (.httpStatus 204 (.jobj []))
        = async_update thermoS0 .timeout) :=
  ⟨by simp [thermoS0],
   c10_empty_poll_unavailable thermoS0 (.jobj []) (by simp [thermoS0])⟩
